import Mathlib

/-!
Verification of the OpenCode controller client
(`scripts/opencode_controller.py`).

The development shallowly embeds the controller's pure decision logic in
Lean.  Network I/O, the child process and the wall clock are modelled by
explicit environment records: each HTTP attempt, health probe or status
poll reads its outcome from the environment, and the embedded functions
reproduce the control flow of the Python source on those outcomes.
Instrumented variants additionally return a trace (actions performed,
number of server starts) so that resource claims can be stated.
-/

namespace OpenCode

/-! ## String containment

A small executable substring test, used to state that error messages
contain a session id, a timeout value, or captured process output. -/

/-- Does the character list `needle` occur contiguously inside `l`? -/
def listContains (needle : List Char) : List Char → Bool
  | [] => needle.isEmpty
  | c :: rest => needle.isPrefixOf (c :: rest) || listContains needle rest

/-- Does string `needle` occur contiguously inside `s`? -/
def strContains (needle s : String) : Bool :=
  listContains needle.data s.data

theorem data_append (a b : String) : (a ++ b).data = a.data ++ b.data := by
  cases a; cases b; rfl

theorem string_append_assoc (a b c : String) : (a ++ b) ++ c = a ++ (b ++ c) := by
  cases a; cases b; cases c
  simp [String.ext_iff, data_append]

theorem isPrefixOf_append_self (n t : List Char) : n.isPrefixOf (n ++ t) = true := by
  induction n with
  | nil => simp [List.isPrefixOf]
  | cons c rest ih => simp [List.isPrefixOf, ih]

theorem listContains_of_isPrefixOf (n l : List Char) (h : n.isPrefixOf l = true) :
    listContains n l = true := by
  cases l with
  | nil =>
    cases n with
    | nil => rfl
    | cons c rest => simp [List.isPrefixOf] at h
  | cons c rest => simp [listContains, h]

theorem listContains_append_right (n l₁ l₂ : List Char) (h : listContains n l₂ = true) :
    listContains n (l₁ ++ l₂) = true := by
  induction l₁ with
  | nil => simpa using h
  | cons c rest ih => simp [listContains, ih]

theorem listContains_middle (x a b : List Char) : listContains x (a ++ (x ++ b)) = true := by
  apply listContains_append_right
  exact listContains_of_isPrefixOf _ _ (isPrefixOf_append_self x b)

theorem strContains_middle (x a b : String) : strContains x (a ++ (x ++ b)) = true := by
  unfold strContains
  rw [data_append, data_append]
  exact listContains_middle x.data a.data b.data

theorem listContains_self (x : List Char) : listContains x x = true := by
  have h := isPrefixOf_append_self x []
  rw [List.append_nil] at h
  exact listContains_of_isPrefixOf _ _ h

theorem strContains_self (x : String) : strContains x x = true :=
  listContains_self x.data

theorem isPrefixOf_append_mono (n : List Char) :
    ∀ l₁ l₂, n.isPrefixOf l₁ = true → n.isPrefixOf (l₁ ++ l₂) = true := by
  induction n with
  | nil => intro l₁ l₂ _; simp [List.isPrefixOf]
  | cons c rest ih =>
    intro l₁ l₂ h
    cases l₁ with
    | nil => simp [List.isPrefixOf] at h
    | cons d l =>
      simp only [List.cons_append, List.isPrefixOf, Bool.and_eq_true] at h ⊢
      exact ⟨h.1, ih l l₂ h.2⟩

theorem listContains_append_left (n : List Char) :
    ∀ l₁ l₂, listContains n l₁ = true → listContains n (l₁ ++ l₂) = true := by
  intro l₁
  induction l₁ with
  | nil =>
    intro l₂ h
    simp [listContains, List.isEmpty_iff] at h
    subst h
    cases l₂ with
    | nil => rfl
    | cons c rest => simp [listContains, List.isPrefixOf]
  | cons c rest ih =>
    intro l₂ h
    simp [listContains] at h ⊢
    rcases h with h | h
    · exact Or.inl (by simpa using isPrefixOf_append_mono n (c :: rest) l₂ (by simpa using h))
    · exact Or.inr (ih l₂ h)

theorem strContains_append_left (n a b : String) (h : strContains n a = true) :
    strContains n (a ++ b) = true := by
  unfold strContains at h ⊢
  rw [data_append]
  exact listContains_append_left n.data a.data b.data h

theorem strContains_append_right (n a b : String) (h : strContains n b = true) :
    strContains n (a ++ b) = true := by
  unfold strContains at h ⊢
  rw [data_append]
  exact listContains_append_right n.data a.data b.data h

/-! ## Response normalization (`OpenCodeController._request`, lines 184-194)

`requests.Response.ok` is false exactly for status codes in `[400, 600)`
(`raise_for_status` raises precisely there).  The body is kept as the raw
string; `response.json()` is represented by tagging the body with `json`
(parsing is delegated to the HTTP library in the source). -/

/-- Error raised for a non-success HTTP status
(`OpenCodeAPIError(message, status_code, response)`). -/
structure ApiError where
  message : String
  status_code : Nat
  response : String
deriving DecidableEq, Repr

/-- Successful result of `_request`: `None`, or the JSON parse of a body. -/
inductive ReqOk where
  | null : ReqOk
  | json (body : String) : ReqOk
deriving DecidableEq, Repr

/-- `requests.Response.ok`: false exactly for status codes 400-599. -/
def respOk (status : Nat) : Bool :=
  if 400 ≤ status ∧ status < 600 then false else true

/-- Normalization of a received HTTP response, from the body of `_request`:
204 yields `None`; a non-ok status raises `OpenCodeAPIError` carrying the
status code and the raw body; a non-empty ok body is JSON-parsed; an empty
ok body yields `None`. -/
def handleResponse (status : Nat) (body : String) : Except ApiError ReqOk :=
  if status = 204 then .ok .null
  else if respOk status = false then
    .error { message := "API error: " ++ (toString status ++ (" - " ++ body)),
             status_code := status, response := body }
  else if body ≠ "" then .ok (.json body)
  else .ok .null

/-! ## Server startup (`OpenCodeController.start_server`, lines 94-145)

`start_server` first checks whether a server is already reachable, then
spawns the child (which may raise `FileNotFoundError`), then polls
`is_server_running()` every 0.5 s while less than `server_timeout` seconds
have elapsed; the `i`-th probe thus happens at elapsed time `i/2`, so the
loop performs `(2 * server_timeout).toNat` probes.  On deadline it checks
`poll()`.  Every `ServerNotRunningError` raised inside the `try:` block is
caught by the trailing `except Exception as e:` clause and re-raised as
`ServerNotRunningError("Failed to start server: " + str(e))`, so the
exited-early and unresponsive messages carry that prefix; the
`FileNotFoundError` message does not (its clause is listed first and its
re-raise happens outside the `try:`). -/

/-- Environment a `start_server` invocation runs against: whether a server
is already reachable, whether the executable can be located, the result of
the `i`-th health probe, and the child's state and captured output at the
startup deadline. -/
structure StartEnv where
  alreadyRunning : Bool
  execFound : Bool
  healthAt : Nat → Bool
  exitedAtTimeout : Bool
  childStdout : String
  childStderr : String

/-- Number of health probes performed before `server_timeout` seconds
elapse, at one probe per 0.5 s: the `i`-th probe runs iff `i/2 < T`. -/
def healthChecks (server_timeout : Int) : Nat :=
  (2 * server_timeout).toNat

/-- Index of the first successful health probe within `fuel` probes
starting at probe index `k`, if any. -/
def firstHealthy (healthAt : Nat → Bool) : Nat → Nat → Option Nat
  | 0, _ => none
  | fuel + 1, k => if healthAt k then some k else firstHealthy healthAt fuel (k + 1)

/-- Message of the `ServerNotRunningError` raised when the executable is
not found (`except FileNotFoundError:` clause, line 140). -/
def notFoundMsg : String :=
  "OpenCode not found. Please install OpenCode: npm install -g opencode-ai"

/-- Message raised when the child exited before the startup deadline
(line 134), after the `except Exception` re-wrap of line 144. -/
def exitedEarlyMsg (out errOut : String) : String :=
  "Failed to start server: Server process exited early.\nstdout: " ++
    (out ++ ("\nstderr: " ++ errOut))

/-- Message raised when the child is alive but unresponsive at the
startup deadline (line 138), after the `except Exception` re-wrap. -/
def startTimeoutMsg : String :=
  "Failed to start server: Server failed to respond within timeout period"

/-- `start_server`: success is `Bool` (`True`), failure is the message of
the `ServerNotRunningError` that propagates to the caller. -/
def start_server (env : StartEnv) (server_timeout : Int) : Except String Bool :=
  if env.alreadyRunning = true then .ok true
  else if env.execFound = false then .error notFoundMsg
  else
    match firstHealthy env.healthAt (healthChecks server_timeout) 0 with
    | some _ => .ok true
    | none =>
      if env.exitedAtTimeout = true then
        .error (exitedEarlyMsg env.childStdout env.childStderr)
      else .error startTimeoutMsg

/-! ## Server shutdown (`OpenCodeController.stop_server`, lines 147-162)

The spawned-process handle `_server_process` is `Option ProcHandle`;
`running` models `poll() is None`, `gracefulExit` models whether
`wait(timeout=5)` returns within the grace period.  The instrumented
result also records the termination requests issued (`terminate()` /
`CTRL_BREAK_EVENT` as the graceful request, `kill()` as the forced one).
-/

/-- State of the child process handle held by the controller. -/
structure ProcHandle where
  running : Bool
  gracefulExit : Bool
deriving DecidableEq, Repr

/-- Termination requests `stop_server` can issue. -/
inductive StopAction where
  | terminate
  | kill
deriving DecidableEq, Repr

/-- `stop_server`: returns its boolean result together with the
termination requests issued. -/
def stop_server (p : Option ProcHandle) : Bool × List StopAction :=
  match p with
  | none => (false, [])
  | some h =>
    if h.running = true then
      if h.gracefulExit = true then (true, [.terminate])
      else (true, [.terminate, .kill])
    else (false, [])

/-- Process state after `stop_server` returns: a live spawned process has
been terminated (gracefully or by `kill()`); everything else unchanged. -/
def stop_server_post (p : Option ProcHandle) : Option ProcHandle :=
  match p with
  | none => none
  | some h => some { h with running := false }

/-- Scoped (context-manager) use of the controller: run the body, then —
on both the normal and the error outcome, per the `with`-statement
semantics — run `__exit__`, which calls `stop_server` (line 388) and
returns `None`, so the body's outcome propagates unchanged. -/
def with_scope {E A : Type} (init : Option ProcHandle)
    (body : Option ProcHandle → Except E A × Option ProcHandle) :
    Except E A × Option ProcHandle :=
  ((body init).1, stop_server_post (body init).2)

/-! ## The API request helper (`OpenCodeController._request`, lines 164-201)

Each attempt of the helper (the initial call or a retry after auto-start)
reads its outcome from an `AttemptEnv`: the result of
`requests.request(...)` and, should that raise `ConnectionError`, the
result of the `is_server_running()` probe and the environment the ensuing
`start_server()` call runs against.  The source retries by a recursive
call `self._request(method, path, json_data, params, timeout)` with no
depth guard; the embedding recurses structurally on the list of attempt
environments, so a run consuming `n + 1` environments performed `n`
start-and-retry steps.  The instrumented result pairs the outcome (`none`
when the environment list is exhausted before the call returns) with the
number of `start_server` invocations performed. -/

/-- Outcome of one `requests.request(...)` call. -/
inductive HttpOutcome where
  | resp (status : Nat) (body : String)
  | connError
deriving Repr

/-- Environment one attempt of `_request` runs against. -/
structure AttemptEnv where
  http : HttpOutcome
  serverRunning : Bool
  startEnv : StartEnv

/-- Controller configuration fields read by `_request`. -/
structure Config where
  auto_start : Bool
  server_timeout : Int

/-- Errors `_request` can propagate: an `OpenCodeAPIError`, the
`OpenCodeError("Cannot connect to OpenCode server")`, or a
`ServerNotRunningError` escaping from `start_server`. -/
inductive ReqErr where
  | api (e : ApiError)
  | cannotConnect
  | startFailure (msg : String)
deriving DecidableEq, Repr

/-- `_request` over a list of attempt environments, returning the outcome
together with the number of `start_server` invocations performed. -/
def request (cfg : Config) : List AttemptEnv → Option (Except ReqErr ReqOk) × Nat
  | [] => (none, 0)
  | e :: rest =>
    match e.http with
    | .resp s b =>
      match handleResponse s b with
      | .ok v => (some (.ok v), 0)
      | .error a => (some (.error (.api a)), 0)
    | .connError =>
      if cfg.auto_start && !e.serverRunning then
        match start_server e.startEnv cfg.server_timeout with
        | .ok _ =>
          let p := request cfg rest
          (p.1, p.2 + 1)
        | .error m => (some (.error (.startFailure m)), 1)
      else (some (.error .cannotConnect), 0)

/-! ## Session status and messages (lines 239-242, 305-330) -/

/-- A per-session status record; only its `"status"` field is read. -/
structure SessionStatus where
  status : Option String
deriving DecidableEq, Repr

/-- The default record `{"status": "unknown"}` of line 242. -/
def unknownStatus : SessionStatus :=
  { status := some "unknown" }

/-- `get_session_status`: the raw reply to `GET /session/status` is `None`
or a mapping; `or {}` turns `None` into the empty mapping, and `.get`
projects the session's record, defaulting to `{"status": "unknown"}`. -/
def get_session_status (resp : Option (List (String × SessionStatus)))
    (sid : String) : SessionStatus :=
  ((resp.getD []).lookup sid).getD unknownStatus

/-- A typed message part; `type_` and `text` model `p.get("type")` and
`p.get("text", "")`. -/
structure Part where
  type_ : Option String
  text : Option String
deriving DecidableEq, Repr

/-- A session message: `msg.get("role")` and `msg.get("parts", [])`. -/
structure Message where
  role : Option String
  parts : Option (List Part)
deriving DecidableEq, Repr

/-- `get_messages` (lines 305-325): a non-list (`None`) reply becomes `[]`. -/
def get_messages (resp : Option (List Message)) : List Message :=
  resp.getD []

/-- Extraction of the final output once the session is idle (lines
360-365): scan the fetched messages from most recent backward for the
first one whose role is `"assistant"`, take its parts of type `"text"` in
original order, and join their texts with newlines; no assistant message
yields `""`. -/
def lastAssistantText (messages : List Message) : String :=
  match messages.reverse.find? (fun m => m.role == some "assistant") with
  | some m =>
    String.intercalate "\n"
      (((m.parts.getD []).filter (fun p => p.type_ == some "text")).map
        (fun p => p.text.getD ""))
  | none => ""

/-! ## Completion polling (`OpenCodeController.wait_for_completion`,
lines 332-369)

The loop checks `time.time() - start_time < timeout` at the top, queries
the status, returns the extracted text on `"idle"`, and otherwise sleeps
`poll_interval` seconds; the `i`-th status query therefore happens at
elapsed time `i * poll_interval`, so the loop performs exactly the polls
with `i * poll_interval < timeout`, i.e. `⌈timeout / poll_interval⌉⁺`
polls, before raising `TimeoutError`.  The environment supplies the
server's reply to the `i`-th `GET /session/status` and the reply to the
message fetch issued on idleness; the instrumented result carries the
trace of queries, fetches (with their `limit`) and sleeps performed. -/

/-- Environment a `wait_for_completion` call runs against. -/
structure PollEnv where
  statusResp : Nat → Option (List (String × SessionStatus))
  messagesResp : Option (List Message)

/-- Observable steps of the polling loop. -/
inductive WaitAction where
  | statusQuery
  | msgFetch (limit : Nat)
  | sleep
deriving DecidableEq, Repr

/-- Message of the `TimeoutError` of line 369. -/
def timeoutMsg (sid : String) (timeout : Int) : String :=
  "Session " ++ (sid ++ (" did not complete within " ++
    (toString timeout ++ " seconds")))

/-- Number of loop iterations: the `i`-th poll runs iff
`i * interval < timeout`. -/
def numPolls (timeout : Int) (interval : ℚ) : Nat :=
  if 0 < interval then (Int.ceil ((timeout : ℚ) / interval)).toNat else 0

/-- The polling loop, with `fuel` iterations remaining and `k` the index
of the next poll. -/
def waitLoop (env : PollEnv) (sid : String) (timeout : Int) :
    Nat → Nat → Except String String × List WaitAction
  | 0, _ => (.error (timeoutMsg sid timeout), [])
  | fuel + 1, k =>
    if (get_session_status (env.statusResp k) sid).status = some "idle" then
      (.ok (lastAssistantText (get_messages env.messagesResp)),
       [.statusQuery, .msgFetch 10])
    else
      ((waitLoop env sid timeout fuel (k + 1)).1,
       .statusQuery :: .sleep :: (waitLoop env sid timeout fuel (k + 1)).2)

/-- `wait_for_completion`. -/
def wait_for_completion (env : PollEnv) (sid : String) (timeout : Int)
    (interval : ℚ) : Except String String × List WaitAction :=
  waitLoop env sid timeout (numPolls timeout interval) 0

/-- The poll count is exact: for a positive interval, the `i`-th poll is
within the deadline iff `i * interval < timeout`. -/
theorem lt_numPolls_iff (timeout : Int) (interval : ℚ) (hv : 0 < interval)
    (i : Nat) : i < numPolls timeout interval ↔ (i : ℚ) * interval < timeout := by
  unfold numPolls
  rw [if_pos hv, Int.lt_toNat, Int.lt_ceil, lt_div_iff₀ hv]
  norm_cast

/-! ## Helper lemmas -/

theorem firstHealthy_eq_none (h : Nat → Bool) :
    ∀ fuel k, (∀ j, j < fuel → h (k + j) = false) → firstHealthy h fuel k = none := by
  intro fuel
  induction fuel with
  | zero => intro k _; rfl
  | succ f ih =>
    intro k hall
    have h0 : h k = false := by simpa using hall 0 (Nat.succ_pos f)
    have hrest : ∀ j, j < f → h ((k + 1) + j) = false := by
      intro j hj
      have := hall (j + 1) (Nat.succ_lt_succ hj)
      simpa [Nat.add_assoc, Nat.add_comm 1 j] using this
    simp [firstHealthy, h0, ih (k + 1) hrest]

theorem waitLoop_idle (env : PollEnv) (sid : String) (timeout : Int) :
    ∀ (i fuel k : Nat), i < fuel →
    (get_session_status (env.statusResp (k + i)) sid).status = some "idle" →
    (∀ j, j < i → (get_session_status (env.statusResp (k + j)) sid).status ≠ some "idle") →
    waitLoop env sid timeout fuel k =
      (.ok (lastAssistantText (get_messages env.messagesResp)),
       (List.replicate i [WaitAction.statusQuery, WaitAction.sleep]).flatten ++
         [WaitAction.statusQuery, WaitAction.msgFetch 10]) := by
  intro i
  induction i with
  | zero =>
    intro fuel k hfuel hidle _
    match fuel, hfuel with
    | f + 1, _ =>
      have hidle' : (get_session_status (env.statusResp k) sid).status = some "idle" := by
        simpa using hidle
      simp [waitLoop, hidle']
  | succ i ih =>
    intro fuel k hfuel hidle hbefore
    match fuel, hfuel with
    | f + 1, hfuel =>
      have hk : (get_session_status (env.statusResp k) sid).status ≠ some "idle" := by
        simpa using hbefore 0 (Nat.succ_pos i)
      have hidle' :
          (get_session_status (env.statusResp ((k + 1) + i)) sid).status = some "idle" := by
        simpa [Nat.add_assoc, Nat.add_comm 1 i] using hidle
      have hbefore' : ∀ j, j < i →
          (get_session_status (env.statusResp ((k + 1) + j)) sid).status ≠ some "idle" := by
        intro j hj
        have := hbefore (j + 1) (Nat.succ_lt_succ hj)
        simpa [Nat.add_assoc, Nat.add_comm 1 j] using this
      have hf : i < f := Nat.lt_of_succ_lt_succ hfuel
      have := ih f (k + 1) hf hidle' hbefore'
      simp [waitLoop, hk, this, List.replicate_succ]

theorem waitLoop_never_idle (env : PollEnv) (sid : String) (timeout : Int) :
    ∀ fuel k,
    (∀ j, j < fuel → (get_session_status (env.statusResp (k + j)) sid).status ≠ some "idle") →
    (waitLoop env sid timeout fuel k).1 = .error (timeoutMsg sid timeout) := by
  intro fuel
  induction fuel with
  | zero => intro k _; rfl
  | succ f ih =>
    intro k hall
    have hk : (get_session_status (env.statusResp k) sid).status ≠ some "idle" := by
      simpa using hall 0 (Nat.succ_pos f)
    have hrest : ∀ j, j < f →
        (get_session_status (env.statusResp ((k + 1) + j)) sid).status ≠ some "idle" := by
      intro j hj
      have := hall (j + 1) (Nat.succ_lt_succ hj)
      simpa [Nat.add_assoc, Nat.add_comm 1 j] using this
    simp [waitLoop, hk, ih (k + 1) hrest]

theorem numPolls_nonpos (timeout : Int) (interval : ℚ) (h : timeout ≤ 0) :
    numPolls timeout interval = 0 := by
  unfold numPolls
  split
  case isTrue hv =>
    have hq : (timeout : ℚ) / interval ≤ 0 :=
      div_nonpos_iff.mpr (Or.inr ⟨by exact_mod_cast h, le_of_lt hv⟩)
    have : Int.ceil ((timeout : ℚ) / interval) ≤ 0 :=
      Int.ceil_le.mpr (by exact_mod_cast hq)
    exact Int.toNat_of_nonpos this
  case isFalse => rfl

theorem numPolls_one_one : numPolls 1 1 = 1 := by
  unfold numPolls
  rw [if_pos one_pos]
  norm_num

theorem numPolls_one_one_pos : 0 < numPolls 1 1 := by
  rw [numPolls_one_one]
  exact Nat.one_pos

theorem exitedEarlyMsg_has_phrase (out errOut : String) :
    strContains "process exited early" (exitedEarlyMsg out errOut) = true := by
  unfold exitedEarlyMsg
  exact strContains_append_left _ _ _ (by decide)

/-! ## Claims -/

/-- Claim C4: a 204 response yields a null result; a non-success status
(400-599, where `response.ok` is false) raises `OpenCodeAPIError` carrying
the original status code and the raw body; a success status with a
non-empty body yields the body parsed as JSON; a success status with an
empty body yields null. -/
theorem request_response_normalization (s : Nat) (b : String) :
    (s = 204 → handleResponse s b = .ok .null) ∧
    (400 ≤ s → s < 600 →
      handleResponse s b = .error
        { message := "API error: " ++ (toString s ++ (" - " ++ b)),
          status_code := s, response := b }) ∧
    (s < 400 → s ≠ 204 → b ≠ "" → handleResponse s b = .ok (.json b)) ∧
    (s < 400 → s ≠ 204 → b = "" → handleResponse s b = .ok .null) := by
  refine ⟨?_, ?_, ?_, ?_⟩
  · intro h
    simp [handleResponse, h]
  · intro h1 h2
    have hne : s ≠ 204 := by omega
    simp [handleResponse, respOk, hne, h1, h2]
  · intro h1 h2 h3
    have hok : respOk s = true := by simp [respOk]; omega
    simp [handleResponse, h2, hok, h3]
  · intro h1 h2 h3
    have hok : respOk s = true := by simp [respOk]; omega
    simp [handleResponse, h2, hok, h3]

/-- Witness for C4: each branch evaluated at a concrete response. -/
theorem request_response_normalization_witness :
    handleResponse 204 "x" = .ok .null ∧
    handleResponse 500 "oops" = .error
      { message := "API error: 500 - oops", status_code := 500, response := "oops" } ∧
    handleResponse 200 "[1]" = .ok (.json "[1]") ∧
    handleResponse 200 "" = .ok .null :=
  ⟨(request_response_normalization 204 "x").1 rfl,
   (request_response_normalization 500 "oops").2.1 (by decide) (by decide),
   (request_response_normalization 200 "[1]").2.2.1 (by decide) (by decide) (by decide),
   (request_response_normalization 200 "").2.2.2 (by decide) (by decide) rfl⟩

/-- Claim C5: for a session id absent from the status map (and in
particular when the whole map is null, which `or {}` turns into the empty
map), `get_session_status` returns the default record
`{"status": "unknown"}` and does not raise. -/
theorem get_session_status_default_unknown
    (resp : Option (List (String × SessionStatus))) (sid : String)
    (habs : (resp.getD []).lookup sid = none) :
    get_session_status resp sid = { status := some "unknown" } ∧
    get_session_status none sid = { status := some "unknown" } := by
  constructor
  · unfold get_session_status
    rw [habs]
    rfl
  · rfl

/-- Witness for C5: an id absent from a non-empty map, and the null map. -/
theorem get_session_status_default_unknown_witness :
    get_session_status (some [("other", { status := some "idle" })]) "missing" =
      { status := some "unknown" } :=
  (get_session_status_default_unknown (some [("other", { status := some "idle" })])
    "missing" (by decide)).1

/-- A flapping environment: the request hits `ConnectionError`, the health
probe inside the `except` clause says the server is down, yet the ensuing
`start_server` finds it reachable again and returns at once. -/
def flapStart : StartEnv :=
  { alreadyRunning := true, execFound := true, healthAt := fun _ => false,
    exitedAtTimeout := false, childStdout := "", childStderr := "" }

/-- One flapping attempt of `_request`. -/
def flapAttempt : AttemptEnv :=
  { http := .connError, serverRunning := false, startEnv := flapStart }

/-- A final attempt that receives a 204 response. -/
def finalAttempt : AttemptEnv :=
  { http := .resp 204 "", serverRunning := true, startEnv := flapStart }

theorem request_flap_step (l : List AttemptEnv) :
    request { auto_start := true, server_timeout := 30 } (flapAttempt :: l) =
      ((request { auto_start := true, server_timeout := 30 } l).1,
       (request { auto_start := true, server_timeout := 30 } l).2 + 1) := rfl

/-- Claim C1 is refuted by the code: the retry of `_request` is a bare
recursive call with no depth guard, so with auto-start enabled a server
that keeps flapping (every attempt hits `ConnectionError` with the probe
reporting "down" and `start_server` succeeding) makes the helper perform
one start-and-retry per consecutive failure — `n` retries for `n` flaps,
not at most one. This contradicts the code's own `# Retry once` comment
(line 199), so the recursion is a slip, not the intent. -/
theorem request_flap_retries_unbounded :
    ∀ n, request { auto_start := true, server_timeout := 30 }
      (List.replicate n flapAttempt ++ [finalAttempt]) = (some (.ok .null), n) := by
  intro n
  induction n with
  | zero => rfl
  | succ n ih =>
    rw [List.replicate_succ, List.cons_append, request_flap_step, ih]

/-- Claim C8: on a `ConnectionError`, if auto-start is disabled or the
server is in fact reachable, `_request` fails at once with the
"Cannot connect" error, performing zero `start_server` invocations. -/
theorem request_fails_fast_without_autostart (cfg : Config) (e : AttemptEnv)
    (rest : List AttemptEnv) (hconn : e.http = .connError)
    (hcase : cfg.auto_start = false ∨ e.serverRunning = true) :
    request cfg (e :: rest) = (some (.error .cannotConnect), 0) := by
  have hcond : (cfg.auto_start && !e.serverRunning) = false := by
    rcases hcase with h | h <;> simp [h]
  simp [request, hconn, hcond]

/-- Witness for C8: auto-start disabled, connection refused. -/
theorem request_fails_fast_without_autostart_witness :
    request { auto_start := false, server_timeout := 30 }
      [{ http := .connError, serverRunning := false, startEnv := flapStart }] =
      (some (.error .cannotConnect), 0) :=
  request_fails_fast_without_autostart { auto_start := false, server_timeout := 30 }
    { http := .connError, serverRunning := false, startEnv := flapStart } [] rfl
    (Or.inl rfl)

/-- Claim C6: with no server already reachable and every health probe
before the startup deadline failing — if the executable cannot be located,
`start_server` fails with the distinct "executable not found" error; if
the child has already exited at the deadline, it fails with the
"process exited early" error whose message contains the phrase and the
captured stdout and stderr; if the child is still alive, it fails with
the distinct "startup timeout" error; and the three messages are pairwise
distinct. -/
theorem start_server_failure_modes (env : StartEnv) (T : Int)
    (hrun : env.alreadyRunning = false)
    (hdead : ∀ i, i < healthChecks T → env.healthAt i = false) :
    (env.execFound = false → start_server env T = .error notFoundMsg) ∧
    (env.execFound = true → env.exitedAtTimeout = true →
      start_server env T = .error (exitedEarlyMsg env.childStdout env.childStderr) ∧
      strContains env.childStdout
        (exitedEarlyMsg env.childStdout env.childStderr) = true ∧
      strContains env.childStderr
        (exitedEarlyMsg env.childStdout env.childStderr) = true ∧
      strContains "process exited early"
        (exitedEarlyMsg env.childStdout env.childStderr) = true) ∧
    (env.execFound = true → env.exitedAtTimeout = false →
      start_server env T = .error startTimeoutMsg) ∧
    (∀ out errOut, exitedEarlyMsg out errOut ≠ startTimeoutMsg ∧
      exitedEarlyMsg out errOut ≠ notFoundMsg ∧ startTimeoutMsg ≠ notFoundMsg) := by
  have hnone : firstHealthy env.healthAt (healthChecks T) 0 = none :=
    firstHealthy_eq_none env.healthAt (healthChecks T) 0 (by simpa using hdead)
  refine ⟨?_, ?_, ?_, ?_⟩
  · intro hexec
    simp [start_server, hrun, hexec]
  · intro hexec hexit
    refine ⟨by simp [start_server, hrun, hexec, hnone, hexit], ?_, ?_,
      exitedEarlyMsg_has_phrase env.childStdout env.childStderr⟩
    · exact strContains_middle env.childStdout _ _
    · unfold exitedEarlyMsg
      exact strContains_append_right _ _ _ (strContains_append_right _ _ _
        (strContains_append_right _ _ _ (strContains_self env.childStderr)))
  · intro hexec hexit
    simp [start_server, hrun, hexec, hnone, hexit]
  · intro out errOut
    refine ⟨?_, ?_, by decide⟩
    · intro h
      have hc := exitedEarlyMsg_has_phrase out errOut
      rw [h] at hc
      exact absurd hc (by decide)
    · intro h
      have hc := exitedEarlyMsg_has_phrase out errOut
      rw [h] at hc
      exact absurd hc (by decide)

/-- Environment whose executable cannot be located. -/
def envNotFound : StartEnv :=
  { alreadyRunning := false, execFound := false, healthAt := fun _ => false,
    exitedAtTimeout := false, childStdout := "", childStderr := "" }

/-- Environment whose child exits before the startup deadline. -/
def envExitedEarly : StartEnv :=
  { alreadyRunning := false, execFound := true, healthAt := fun _ => false,
    exitedAtTimeout := true, childStdout := "OUT", childStderr := "ERR" }

/-- Environment whose child stays alive but never answers. -/
def envUnresponsive : StartEnv :=
  { alreadyRunning := false, execFound := true, healthAt := fun _ => false,
    exitedAtTimeout := false, childStdout := "", childStderr := "" }

/-- Witness for C6: the three failure modes at concrete environments. -/
theorem start_server_failure_modes_witness :
    start_server envNotFound 1 = .error notFoundMsg ∧
    start_server envExitedEarly 1 = .error (exitedEarlyMsg "OUT" "ERR") ∧
    start_server envUnresponsive 1 = .error startTimeoutMsg :=
  ⟨(start_server_failure_modes envNotFound 1 rfl (fun _ _ => rfl)).1 rfl,
   ((start_server_failure_modes envExitedEarly 1 rfl (fun _ _ => rfl)).2.1 rfl rfl).1,
   (start_server_failure_modes envUnresponsive 1 rfl (fun _ _ => rfl)).2.2.1 rfl rfl⟩

/-- Claim C7 as stated is false on the code: `stop_server` also returns
false when a process was spawned but has already exited
(`poll() is not None`), so "returns false exactly when no process was
spawned" fails at a spawned, already-exited handle. -/
theorem stop_server_false_despite_spawn :
    ¬(((stop_server (some { running := false, gracefulExit := true })).1 = false) ↔
      (some { running := false, gracefulExit := true } : Option ProcHandle) = none) := by
  intro h
  exact Option.noConfusion (h.mp rfl)

/-- Claim C7, amended: `stop_server` returns false exactly when no process
was spawned by this manager or the spawned process has already terminated;
for a live spawned process it requests graceful termination, waits up to
the grace period, force-kills only if that elapses, and returns true. -/
theorem stop_server_spec (p : Option ProcHandle) :
    ((stop_server p).1 = false ↔
      p = none ∨ ∃ h, p = some h ∧ h.running = false) ∧
    (∀ h, p = some h → h.running = true →
      stop_server p = (true, if h.gracefulExit = true then [StopAction.terminate]
        else [StopAction.terminate, StopAction.kill])) := by
  constructor
  · cases p with
    | none => simp [stop_server]
    | some h =>
      cases hr : h.running with
      | false => simp [stop_server, hr]
      | true =>
        cases hg : h.gracefulExit with
        | false => simp [stop_server, hr, hg]
        | true => simp [stop_server, hr, hg]
  · intro h hp hr
    subst hp
    cases hg : h.gracefulExit with
    | false => simp [stop_server, hr, hg]
    | true => simp [stop_server, hr, hg]

/-- Witness for C7: a live process whose grace period elapses is
terminated, then killed, and true is returned. -/
theorem stop_server_spec_witness :
    stop_server (some { running := true, gracefulExit := false }) =
      (true, [StopAction.terminate, StopAction.kill]) :=
  (stop_server_spec (some { running := true, gracefulExit := false })).2
    { running := true, gracefulExit := false } rfl rfl

/-- Claim C9: when the controller is used as a scoped resource, every exit
path — the body's normal result and its propagating error alike — runs
`__exit__`, hence `stop_server`: after the scope exits no spawned process
is still running, and the body's outcome propagates unchanged. -/
theorem scoped_exit_stops_server {E A : Type} (init : Option ProcHandle)
    (body : Option ProcHandle → Except E A × Option ProcHandle) :
    (∀ h, (with_scope init body).2 = some h → h.running = false) ∧
    (with_scope init body).1 = (body init).1 := by
  constructor
  · intro h hpost
    unfold with_scope at hpost
    cases hb : (body init).2 with
    | none =>
      rw [hb] at hpost
      exact Option.noConfusion hpost
    | some g =>
      rw [hb] at hpost
      have hg := Option.some.inj hpost
      rw [← hg]
  · rfl

/-- Witness for C9: a body that spawns a live process and then fails with
an error still leaves a terminated process behind, and the error
propagates. -/
theorem scoped_exit_stops_server_witness :
    ({ running := false, gracefulExit := true } : ProcHandle).running = false ∧
    (with_scope (E := String) (A := Nat) none
      (fun _ => (.error "boom", some { running := true, gracefulExit := true }))).1 =
      .error "boom" :=
  ⟨(scoped_exit_stops_server (E := String) (A := Nat) none
      (fun _ => (.error "boom", some { running := true, gracefulExit := true }))).1
      { running := false, gracefulExit := true } rfl,
   (scoped_exit_stops_server (E := String) (A := Nat) none
      (fun _ => (.error "boom", some { running := true, gracefulExit := true }))).2⟩

/-- Claim C2: if the session's reported status first becomes "idle" at the
`i`-th poll, before the deadline, `wait_for_completion` returns — without
raising — the text extracted by `lastAssistantText` from the fetched
messages (scan from most recent backward for the first assistant message,
join its text-typed parts' texts in original order with newlines, `""` if
there is none), and its trace shows the message fetch was issued once,
with `limit` 10, after the idle poll. -/
theorem wait_for_completion_idle_result (env : PollEnv) (sid : String)
    (timeout : Int) (interval : ℚ) (i : Nat)
    (hi : i < numPolls timeout interval)
    (hidle : (get_session_status (env.statusResp i) sid).status = some "idle")
    (hbefore : ∀ j, j < i →
      (get_session_status (env.statusResp j) sid).status ≠ some "idle") :
    wait_for_completion env sid timeout interval =
      (.ok (lastAssistantText (get_messages env.messagesResp)),
       (List.replicate i [WaitAction.statusQuery, WaitAction.sleep]).flatten ++
         [WaitAction.statusQuery, WaitAction.msgFetch 10]) := by
  unfold wait_for_completion
  exact waitLoop_idle env sid timeout i (numPolls timeout interval) 0 hi
    (by simpa using hidle) (by simpa using hbefore)

/-- Witness for C2: idle at the first poll; the assistant message's two
text parts are joined by a newline, its non-text part is skipped. -/
theorem wait_for_completion_idle_result_witness :
    wait_for_completion
      { statusResp := fun _ => some [("s1", { status := some "idle" })],
        messagesResp := some
          [{ role := some "user",
             parts := some [{ type_ := some "text", text := some "task" }] },
           { role := some "assistant",
             parts := some [{ type_ := some "text", text := some "hello" },
                            { type_ := some "step-start", text := none },
                            { type_ := some "text", text := some "world" }] }] }
      "s1" 1 1 =
      (.ok "hello\nworld", [WaitAction.statusQuery, WaitAction.msgFetch 10]) :=
  (wait_for_completion_idle_result
    { statusResp := fun _ => some [("s1", { status := some "idle" })],
      messagesResp := some
        [{ role := some "user",
           parts := some [{ type_ := some "text", text := some "task" }] },
         { role := some "assistant",
           parts := some [{ type_ := some "text", text := some "hello" },
                          { type_ := some "step-start", text := none },
                          { type_ := some "text", text := some "world" }] }] }
    "s1" 1 1 0 numPolls_one_one_pos rfl
    (fun j hj => absurd hj (Nat.not_lt_zero j))).trans rfl

/-- Claim C3: if the status never equals "idle" at any poll before the
deadline, `wait_for_completion` raises the timeout error, whose message
names both the session id and the configured timeout in seconds. -/
theorem wait_for_completion_timeout_error (env : PollEnv) (sid : String)
    (timeout : Int) (interval : ℚ) (hv : 0 < interval)
    (h : ∀ i, i < numPolls timeout interval →
      (get_session_status (env.statusResp i) sid).status ≠ some "idle") :
    (wait_for_completion env sid timeout interval).1 =
      .error (timeoutMsg sid timeout) ∧
    timeoutMsg sid timeout =
      "Session " ++ (sid ++ (" did not complete within " ++
        (toString timeout ++ " seconds"))) ∧
    strContains sid (timeoutMsg sid timeout) = true ∧
    strContains (toString timeout) (timeoutMsg sid timeout) = true := by
  refine ⟨?_, rfl, ?_, ?_⟩
  · unfold wait_for_completion
    exact waitLoop_never_idle env sid timeout (numPolls timeout interval) 0
      (by simpa using h)
  · exact strContains_middle sid "Session "
      (" did not complete within " ++ (toString timeout ++ " seconds"))
  · unfold timeoutMsg
    exact strContains_append_right _ _ _ (strContains_append_right _ _ _
      (strContains_append_right _ _ _
        (strContains_append_left _ _ _ (strContains_self (toString timeout)))))

/-- Witness for C3: a session that is never reported idle within a 1 s
deadline at a 1 s interval. -/
theorem wait_for_completion_timeout_error_witness :
    (wait_for_completion { statusResp := fun _ => none, messagesResp := none }
      "s1" 1 1).1 = .error (timeoutMsg "s1" 1) :=
  (wait_for_completion_timeout_error
    { statusResp := fun _ => none, messagesResp := none } "s1" 1 1 one_pos
    (fun i _ => by
      show (get_session_status none "s1").status ≠ some "idle"
      decide)).1

/-- Claim C10: for a timeout that is zero or negative, the loop condition
`time.time() - start_time < timeout` is false at the very first check, so
`wait_for_completion` raises the timeout error immediately, with no status
query, no message fetch and no sleep. -/
theorem wait_for_completion_nonpositive_timeout (env : PollEnv) (sid : String)
    (timeout : Int) (interval : ℚ) (h : timeout ≤ 0) :
    wait_for_completion env sid timeout interval =
      (.error (timeoutMsg sid timeout), []) := by
  unfold wait_for_completion
  rw [numPolls_nonpos timeout interval h]
  rfl

/-- Witness for C10: timeout 0 raises at once with an empty trace. -/
theorem wait_for_completion_nonpositive_timeout_witness :
    wait_for_completion { statusResp := fun _ => none, messagesResp := none }
      "s1" 0 2 = (.error (timeoutMsg "s1" 0), []) :=
  wait_for_completion_nonpositive_timeout
    { statusResp := fun _ => none, messagesResp := none } "s1" 0 2 (le_refl 0)

end OpenCode
